import Mathlib

/-!
Verification of the RoadPlan route layout (`src/routes/layout.tsx`):
the cache policy handler `onGet`, the preference store created by
`useStore`, context distribution via `StoreContext`, the hydration
task registered with `useVisibleTask$`, and the shell composition of
the layout component.  TypeScript runtime values that may be `null`
are embedded as `Option String`; the client storage and the reactive
store heap are explicit state.
-/

namespace RoadPlan

/-- Qwik's `cacheControl` options record.  Each field is optional; a call
to `cacheControl` installs exactly the fields given in the literal, all
others stay absent.  (`pub`/`priv` stand for the TS `public`/`private`
fields, which are reserved words in Lean.) -/
structure CacheControlOptions where
  maxAge : Option Nat
  sMaxAge : Option Nat
  staleWhileRevalidate : Option Nat
  noStore : Option Bool
  noCache : Option Bool
  pub : Option Bool
  priv : Option Bool
  immutable : Option Bool
deriving DecidableEq, Repr

/-- The per-request event handed to a route handler: the route path and
request body (which `onGet` never inspects) together with the cache
policy state of the outgoing response. -/
structure RequestEvent where
  route : String
  body : String
  cache : CacheControlOptions
deriving DecidableEq, Repr

/-- Qwik's `cacheControl` call: replaces the response's cache policy with
the given options. -/
def cacheControl (opts : CacheControlOptions) (ev : RequestEvent) : RequestEvent :=
  { ev with cache := opts }

/-- The route's `onGet` request handler from `src/routes/layout.tsx`:
`cacheControl({ staleWhileRevalidate: 60 * 60 * 24 * 7, maxAge: 5 })`.
Fields not named in the TS object literal are `undefined`, i.e. `none`. -/
def onGet (ev : RequestEvent) : RequestEvent :=
  cacheControl
    { maxAge := some 5
      sMaxAge := none
      staleWhileRevalidate := some (60 * 60 * 24 * 7)
      noStore := none
      noCache := none
      pub := none
      priv := none
      immutable := none } ev

/-- The preference store `{ theme }`.  The TS field is typed
`"light" | "dark" | "system"`, but the hydration task's unchecked cast
can place any string, and `localStorage.getItem` can place `null`; the
runtime value is therefore an `Option String`. -/
structure Store where
  theme : Option String
deriving DecidableEq, Repr

/-- Heap addresses for reactive store instances. -/
abbrev Addr := Nat

/-- The reactive heap holding store instances; addresses are indices. -/
structure Heap where
  stores : List Store
deriving DecidableEq, Repr

/-- `useStore` allocation: appends a fresh store instance and returns its
address. -/
def Heap.alloc (h : Heap) (s : Store) : Heap × Addr :=
  ({ stores := h.stores ++ [s] }, h.stores.length)

/-- Mutation `store.theme = t` through the reference at address `a`. -/
def Heap.writeTheme (h : Heap) (a : Addr) (t : Option String) : Heap :=
  { stores := h.stores.set a { theme := t } }

/-- Dereference the store at `a` and read its `theme` field. -/
def Heap.readTheme (h : Heap) (a : Addr) : Option (Option String) :=
  (h.stores[a]?).map Store.theme

/-- The context table built by `useContextProvider`: context ids mapped to
store references (addresses), innermost provider first. -/
structure Context where
  entries : List (String × Addr)
deriving DecidableEq, Repr

/-- `useContextProvider(id, store)`: binds the context id to the store
reference for the subtree. -/
def useContextProvider (c : Context) (id : String) (a : Addr) : Context :=
  { entries := (id, a) :: c.entries }

/-- `useContext(id)` as performed by a descendant: resolves the innermost
binding of the context id to a store reference. -/
def useContext (c : Context) (id : String) : Option Addr :=
  (c.entries.find? (fun p => p.1 == id)).map (fun p => p.2)

/-- `createContextId<Store>("Store")`: the process-wide context id. -/
def StoreContext : String := "Store"

/-- The `loadingBar` section of `road-plan.config`. -/
structure LoadingBarConfig where
  enabled : Bool
deriving DecidableEq, Repr

/-- The static configuration read by the layout (`config.loadingBar.enabled`
is the only field it consumes). -/
structure Config where
  loadingBar : LoadingBarConfig
deriving DecidableEq, Repr

/-- Top-level children of the layout's `<div class="app-layout">`:
the `<LoadingBar />`, `<Header />`, `<main><Slot /></main>` (the route
content slot, opaque here) and `<Footer />`. -/
inductive Node where
  | loadingBar
  | header
  | mainSlot
  | footer
deriving DecidableEq, Repr

/-- The tree composed by the layout component: a single `div` with a class
name and an ordered child list. -/
structure RenderedTree where
  className : String
  children : List Node
deriving DecidableEq, Repr

/-- The JSX returned by the layout component.  The closure captures the
store, but the markup itself never reads it: the conditional child is
`config.loadingBar.enabled && <LoadingBar />`, followed by `<Header />`,
`<main><Slot /></main>` and `<Footer />`. -/
def layoutRender (cfg : Config) (s : Store) : RenderedTree :=
  { className := "app-layout"
    children :=
      (if cfg.loadingBar.enabled then [Node.loadingBar] else []) ++
        [Node.header, Node.mainSlot, Node.footer] }

/-- Result of one server render of the layout component. -/
structure RenderResult where
  heap : Heap
  context : Context
  storeAddr : Addr
  tree : RenderedTree
deriving DecidableEq, Repr

/-- One server render of the default-exported layout component:
`useStore<Store>({ theme: "light" })`, then
`useContextProvider(StoreContext, store)`, then the JSX above.
(The `useVisibleTask$` callback is only registered here; it runs later,
client side, as `useVisibleTask`.) -/
def layoutComponent (cfg : Config) (h : Heap) (c : Context) : RenderResult :=
  let alloc := h.alloc { theme := some "light" }
  let c1 := useContextProvider c StoreContext alloc.2
  { heap := alloc.1
    context := c1
    storeAddr := alloc.2
    tree := layoutRender cfg { theme := some "light" } }

/-- Client-side durable storage (`localStorage`): a key/value table of raw
strings. -/
structure LocalStorage where
  entries : List (String × String)
deriving DecidableEq, Repr

/-- `localStorage.getItem(key)`: `some` the stored string, or `none` for
JavaScript `null` when the key is absent. -/
def LocalStorage.getItem (ls : LocalStorage) (key : String) : Option String :=
  (ls.entries.find? (fun p => p.1 == key)).map (fun p => p.2)

/-- The browser-side state the hydration task can touch: client storage
and the reactive store heap. -/
structure ClientState where
  storage : LocalStorage
  heap : Heap
deriving DecidableEq, Repr

/-- Observable effects of a client task, in execution order: a storage
read, a storage write, or a reactive store-field write (each store-field
write notifies the field's subscribers once). -/
inductive Effect where
  | storageRead (key : String)
  | storageWrite (key : String) (value : String)
  | storeWrite (field : String) (value : Option String)
deriving DecidableEq, Repr

/-- Whether an effect is a reactive store-field write. -/
def Effect.isStoreWrite : Effect → Bool
  | Effect.storeWrite _ _ => true
  | _ => false

/-- Whether an effect writes to client storage. -/
def Effect.isStorageWrite : Effect → Bool
  | Effect.storageWrite _ _ => true
  | _ => false

/-- The `useVisibleTask$` callback, run once in the browser against the
store at address `a`:
`const theme = localStorage.getItem("theme"); store.theme = theme;`.
Returns the updated state and the trace of effects in order. -/
def useVisibleTask (a : Addr) (st : ClientState) : ClientState × List Effect :=
  let theme := st.storage.getItem "theme"
  ({ st with heap := st.heap.writeTheme a theme },
    [Effect.storageRead "theme", Effect.storeWrite "theme" theme])

/-- The data-model invariant claimed for the store's `theme`: one of the
three enumerated themes, or unset (`null`). -/
def themeWellFormed (t : Option String) : Prop :=
  t = some "light" ∨ t = some "dark" ∨ t = some "system" ∨ t = none

instance (t : Option String) : Decidable (themeWellFormed t) := by
  unfold themeWellFormed
  infer_instance

end RoadPlan

namespace RoadPlan

/-- C1: for every request, `onGet` sets exactly two cache directives,
`maxAge = 5` and `staleWhileRevalidate = 60 * 60 * 24 * 7 = 604800`,
leaves every other directive unset, and the resulting policy is
independent of the route and request body. -/
theorem onGet_cache_policy (ev : RequestEvent) :
    (onGet ev).cache =
      { maxAge := some 5
        sMaxAge := none
        staleWhileRevalidate := some 604800
        noStore := none
        noCache := none
        pub := none
        priv := none
        immutable := none } ∧
    ∀ ev2 : RequestEvent, (onGet ev).cache = (onGet ev2).cache := by
  exact ⟨rfl, fun ev2 => rfl⟩

/-- C5: one server render of the layout allocates exactly one new store
instance, initialized with `theme = "light"`, and before the hydration
task runs the store read through its address yields `"light"`. -/
theorem useStore_creates_single_light_store (cfg : Config) (h : Heap) (c : Context) :
    (layoutComponent cfg h c).heap.stores = h.stores ++ [{ theme := some "light" }] ∧
    (layoutComponent cfg h c).heap.readTheme (layoutComponent cfg h c).storeAddr
      = some (some "light") := by
  refine ⟨rfl, ?_⟩
  simp [layoutComponent, Heap.alloc, Heap.readTheme, List.getElem?_concat_length]

/-- C6: the hydration task is idempotent: running it twice against the
same client storage leaves the same state as running it once. -/
theorem hydration_idempotent (a : Addr) (st : ClientState) :
    (useVisibleTask a (useVisibleTask a st).1).1 = (useVisibleTask a st).1 := by
  simp [useVisibleTask, Heap.writeTheme, List.set_set]

/-- C9: the tree composed by the layout does not depend on the store's
theme value; any two theme values produce identical output. -/
theorem layout_tree_independent_of_theme (cfg : Config) (s1 s2 : Store) :
    layoutRender cfg s1 = layoutRender cfg s2 := rfl

/-- C7: the composed shell contains the Loading indicator iff
`config.loadingBar.enabled` is true, and in all cases renders, in order,
the optional Loading indicator, the Header, the content slot and the
Footer. -/
theorem shell_composition (cfg : Config) (s : Store) :
    (Node.loadingBar ∈ (layoutRender cfg s).children ↔ cfg.loadingBar.enabled = true) ∧
    ((layoutRender cfg s).children.filter (fun n => n != Node.loadingBar))
      = [Node.header, Node.mainSlot, Node.footer] ∧
    (layoutRender cfg s).children
      = if cfg.loadingBar.enabled
        then [Node.loadingBar, Node.header, Node.mainSlot, Node.footer]
        else [Node.header, Node.mainSlot, Node.footer] := by
  rcases cfg with ⟨⟨b⟩⟩
  cases b <;> refine ⟨?_, ?_, ?_⟩ <;> simp [layoutRender]

/-- C8: a descendant resolving `StoreContext` after the layout render
obtains the reference to the allocated store, and a theme mutation made
through that reference is observable by any other resolver of the same
reference. -/
theorem context_resolves_shared_store (cfg : Config) (h : Heap) (c : Context)
    (t : Option String) :
    useContext (layoutComponent cfg h c).context StoreContext
      = some (layoutComponent cfg h c).storeAddr ∧
    ((layoutComponent cfg h c).heap.writeTheme (layoutComponent cfg h c).storeAddr t).readTheme
      (layoutComponent cfg h c).storeAddr = some t := by
  refine ⟨rfl, ?_⟩
  simp [layoutComponent, Heap.alloc, Heap.writeTheme, Heap.readTheme]

end RoadPlan

namespace RoadPlan

/-- C2: when no persisted value exists under the storage key `"theme"`,
the hydration task still assigns the `null` read result into the store:
afterwards the theme is unset rather than the server default `"light"`. -/
theorem hydration_null_assigned (st : ClientState) (a : Addr)
    (ha : a < st.heap.stores.length)
    (hnone : st.storage.getItem "theme" = none) :
    (useVisibleTask a st).1.heap.readTheme a = some none ∧
    (useVisibleTask a st).1.heap.readTheme a ≠ some (some "light") := by
  have hread : (useVisibleTask a st).1.heap.readTheme a = some none := by
    simp [useVisibleTask, Heap.writeTheme, Heap.readTheme, hnone,
      List.getElem?_set_self ha]
  refine ⟨hread, ?_⟩
  rw [hread]
  simp

/-- C2 witness: empty storage, a one-store heap; the theme ends up unset. -/
theorem hydration_null_assigned_witness :
    (0 < (ClientState.mk (LocalStorage.mk []) (Heap.mk [Store.mk (some "light")])).heap.stores.length ∧
      (ClientState.mk (LocalStorage.mk []) (Heap.mk [Store.mk (some "light")])).storage.getItem "theme" = none) ∧
    (useVisibleTask 0 (ClientState.mk (LocalStorage.mk []) (Heap.mk [Store.mk (some "light")]))).1.heap.readTheme 0 = some none ∧
    (useVisibleTask 0 (ClientState.mk (LocalStorage.mk []) (Heap.mk [Store.mk (some "light")]))).1.heap.readTheme 0 ≠ some (some "light") :=
  ⟨⟨by decide, by rfl⟩,
    hydration_null_assigned
      (ClientState.mk (LocalStorage.mk []) (Heap.mk [Store.mk (some "light")]))
      0 (by decide) (by rfl)⟩

/-- C4: for every persisted string `v` under the key `"theme"`, the
hydration task assigns `v` verbatim into the store's theme (no
validation), and its trace contains exactly one store-field write, so
dependent components are notified exactly once. -/
theorem hydration_assigns_verbatim (st : ClientState) (a : Addr) (v : String)
    (ha : a < st.heap.stores.length)
    (hv : st.storage.getItem "theme" = some v) :
    (useVisibleTask a st).1.heap.readTheme a = some (some v) ∧
    ((useVisibleTask a st).2).countP Effect.isStoreWrite = 1 := by
  constructor
  · simp [useVisibleTask, Heap.writeTheme, Heap.readTheme, hv,
      List.getElem?_set_self ha]
  · simp [useVisibleTask, List.countP_cons, Effect.isStoreWrite]

/-- C4 witness: persisted value `"dark"` lands verbatim in the store and
produces exactly one store write. -/
theorem hydration_assigns_verbatim_witness :
    (0 < (ClientState.mk (LocalStorage.mk [("theme", "dark")]) (Heap.mk [Store.mk (some "light")])).heap.stores.length ∧
      (ClientState.mk (LocalStorage.mk [("theme", "dark")]) (Heap.mk [Store.mk (some "light")])).storage.getItem "theme" = some "dark") ∧
    (useVisibleTask 0 (ClientState.mk (LocalStorage.mk [("theme", "dark")]) (Heap.mk [Store.mk (some "light")]))).1.heap.readTheme 0 = some (some "dark") ∧
    ((useVisibleTask 0 (ClientState.mk (LocalStorage.mk [("theme", "dark")]) (Heap.mk [Store.mk (some "light")]))).2).countP Effect.isStoreWrite = 1 :=
  ⟨⟨by decide, by rfl⟩,
    hydration_assigns_verbatim
      (ClientState.mk (LocalStorage.mk [("theme", "dark")]) (Heap.mk [Store.mk (some "light")]))
      0 "dark" (by decide) (by rfl)⟩

/-- C3 counterexample: with persisted storage `theme ↦ "purple"`, the
hydration task leaves the store's theme at `"purple"`, which is neither
one of the three enumerated values nor unset — the lifecycle invariant
fails as stated. -/
theorem theme_invariant_counterexample :
    (useVisibleTask 0 (ClientState.mk (LocalStorage.mk [("theme", "purple")])
        (Heap.mk [Store.mk (some "light")]))).1.heap.readTheme 0 = some (some "purple") ∧
    ¬ themeWellFormed (some "purple") := by
  exact ⟨by rfl, by decide⟩

/-- C3 amended: store creation yields the well-formed theme `"light"` and
render preserves it; after hydration reconciliation the theme equals
exactly the persisted string (or null), hence the invariant holds
whenever the persisted value under `"theme"`, if present, is one of the
three enumerated values. -/
theorem theme_invariant_amended (cfg : Config) (hp : Heap) (c : Context)
    (st : ClientState) (a : Addr)
    (ha : a < st.heap.stores.length)
    (hwf : themeWellFormed (st.storage.getItem "theme")) :
    themeWellFormed (some "light") ∧
    (layoutComponent cfg hp c).heap.readTheme (layoutComponent cfg hp c).storeAddr
      = some (some "light") ∧
    (useVisibleTask a st).1.heap.readTheme a = some (st.storage.getItem "theme") ∧
    ∀ t, (useVisibleTask a st).1.heap.readTheme a = some t → themeWellFormed t := by
  have hread : (useVisibleTask a st).1.heap.readTheme a
      = some (st.storage.getItem "theme") := by
    simp [useVisibleTask, Heap.writeTheme, Heap.readTheme, List.getElem?_set_self ha]
  refine ⟨by decide, ?_, hread, ?_⟩
  · simp [layoutComponent, Heap.alloc, Heap.readTheme, List.getElem?_concat_length]
  · intro t ht
    rw [hread] at ht
    injection ht with ht
    rw [ht] at hwf
    exact hwf

/-- C3 amended witness: storage holding `"dark"`; every conjunct holds at
this concrete lifecycle. -/
theorem theme_invariant_amended_witness :
    (0 < (ClientState.mk (LocalStorage.mk [("theme", "dark")]) (Heap.mk [Store.mk (some "light")])).heap.stores.length ∧
      themeWellFormed ((ClientState.mk (LocalStorage.mk [("theme", "dark")]) (Heap.mk [Store.mk (some "light")])).storage.getItem "theme")) ∧
    (themeWellFormed (some "light") ∧
      (layoutComponent (Config.mk (LoadingBarConfig.mk true)) (Heap.mk []) (Context.mk [])).heap.readTheme
        (layoutComponent (Config.mk (LoadingBarConfig.mk true)) (Heap.mk []) (Context.mk [])).storeAddr
        = some (some "light") ∧
      (useVisibleTask 0 (ClientState.mk (LocalStorage.mk [("theme", "dark")]) (Heap.mk [Store.mk (some "light")]))).1.heap.readTheme 0
        = some ((ClientState.mk (LocalStorage.mk [("theme", "dark")]) (Heap.mk [Store.mk (some "light")])).storage.getItem "theme") ∧
      ∀ t, (useVisibleTask 0 (ClientState.mk (LocalStorage.mk [("theme", "dark")]) (Heap.mk [Store.mk (some "light")]))).1.heap.readTheme 0
          = some t → themeWellFormed t) :=
  ⟨⟨by decide, by decide⟩,
    theme_invariant_amended (Config.mk (LoadingBarConfig.mk true)) (Heap.mk []) (Context.mk [])
      (ClientState.mk (LocalStorage.mk [("theme", "dark")]) (Heap.mk [Store.mk (some "light")]))
      0 (by decide) (by decide)⟩

/-- C10: the hydration task's only effect is the single write to the
store's theme field: client storage is unchanged, every other store in
the heap reads the same, its trace contains no storage write, every
storage read in the trace is of the key `"theme"`, and exactly one
store-field write occurs. -/
theorem hydration_frame (st : ClientState) (a b : Addr) (hb : b ≠ a) :
    (useVisibleTask a st).1.storage = st.storage ∧
    (useVisibleTask a st).1.heap.readTheme b = st.heap.readTheme b ∧
    (∀ e ∈ (useVisibleTask a st).2, Effect.isStorageWrite e = false) ∧
    (∀ k, Effect.storageRead k ∈ (useVisibleTask a st).2 → k = "theme") ∧
    ((useVisibleTask a st).2).countP Effect.isStoreWrite = 1 := by
  refine ⟨rfl, ?_, ?_, ?_, ?_⟩
  · simp [useVisibleTask, Heap.writeTheme, Heap.readTheme,
      List.getElem?_set_ne (Ne.symm hb)]
  · intro e he
    simp [useVisibleTask] at he
    rcases he with h1 | h1 <;> rw [h1] <;> rfl
  · intro k hk
    simp [useVisibleTask] at hk
    exact hk
  · simp [useVisibleTask, List.countP_cons, Effect.isStoreWrite]

/-- C10 witness: a two-store heap; the task on store 0 leaves storage and
store 1 untouched, with the exact effect trace. -/
theorem hydration_frame_witness :
    ((1 : Addr) ≠ 0) ∧
    ((useVisibleTask 0 (ClientState.mk (LocalStorage.mk [("theme", "dark")]) (Heap.mk [Store.mk (some "light"), Store.mk (some "system")]))).1.storage
        = (ClientState.mk (LocalStorage.mk [("theme", "dark")]) (Heap.mk [Store.mk (some "light"), Store.mk (some "system")])).storage ∧
      (useVisibleTask 0 (ClientState.mk (LocalStorage.mk [("theme", "dark")]) (Heap.mk [Store.mk (some "light"), Store.mk (some "system")]))).1.heap.readTheme 1
        = (ClientState.mk (LocalStorage.mk [("theme", "dark")]) (Heap.mk [Store.mk (some "light"), Store.mk (some "system")])).heap.readTheme 1 ∧
      (∀ e ∈ (useVisibleTask 0 (ClientState.mk (LocalStorage.mk [("theme", "dark")]) (Heap.mk [Store.mk (some "light"), Store.mk (some "system")]))).2, Effect.isStorageWrite e = false) ∧
      (∀ k, Effect.storageRead k ∈ (useVisibleTask 0 (ClientState.mk (LocalStorage.mk [("theme", "dark")]) (Heap.mk [Store.mk (some "light"), Store.mk (some "system")]))).2 → k = "theme") ∧
      ((useVisibleTask 0 (ClientState.mk (LocalStorage.mk [("theme", "dark")]) (Heap.mk [Store.mk (some "light"), Store.mk (some "system")]))).2).countP Effect.isStoreWrite = 1) :=
  ⟨by decide,
    hydration_frame
      (ClientState.mk (LocalStorage.mk [("theme", "dark")]) (Heap.mk [Store.mk (some "light"), Store.mk (some "system")]))
      0 1 (by decide)⟩

end RoadPlan
